import Mathlib

/-!
A shallow embedding of the MIPS-lite simulator (functional simulator,
no-forwarding pipeline, with-forwarding pipeline, instruction decoder and
memory-image reader) together with theorems settling the specification
claims about it.

Machine values are modelled as bit patterns: a C `int32_t` or `uint32_t`
is a `Nat` below 2^32 (two's-complement wrapping arithmetic is arithmetic
mod 2^32 on patterns).  C `int` quantities that hold sign-extended
immediates are modelled as `Int`.  Truncating C division/modulo on signed
values is `Int.tdiv`/`Int.tmod`.  Out-of-bounds array accesses (undefined
behaviour in the C source) and `exit(1)` are modelled by `Except` errors.
-/

namespace MipsLite

/-- Wrap a natural number to a 32-bit pattern (uint32/int32 store). -/
def wrap32 (n : Nat) : Nat := n % 4294967296

/-- The 32-bit pattern of a signed integer (two's complement). -/
def pat32 (i : Int) : Nat := (i.emod 4294967296).toNat

/-- Signed value of a 32-bit pattern. -/
def toSigned (p : Nat) : Int :=
  if p < 2147483648 then (p : Int) else (p : Int) - 4294967296

/-- C cast `(int16_t)(x & 0xFFFF)` then widening to `int`: sign-extension
of the low 16 bits. -/
def signExt16 (x : Nat) : Int :=
  if x % 65536 < 32768 then ((x % 65536 : Nat) : Int)
  else ((x % 65536 : Nat) : Int) - 65536

/-- 32-bit wrapping subtraction on patterns. -/
def wsub (a b : Nat) : Nat := wrap32 (a + (4294967296 - b % 4294967296))

/-- Pointwise update of a memory/register bank. -/
def upd (f : Nat → Nat) (i v : Nat) : Nat → Nat :=
  fun j => if j = i then v else f j

/-- Pointwise update of a boolean tracking array. -/
def updB (f : Nat → Bool) (i : Nat) (v : Bool) : Nat → Bool :=
  fun j => if j = i then v else f j

/-! Opcode values, from `instruction_decoder.h`. -/

def oADD : Nat := 0x00
def oADDI : Nat := 0x01
def oSUB : Nat := 0x02
def oSUBI : Nat := 0x03
def oMUL : Nat := 0x04
def oMULI : Nat := 0x05
def oOR : Nat := 0x06
def oORI : Nat := 0x07
def oAND : Nat := 0x08
def oANDI : Nat := 0x09
def oXOR : Nat := 0x0A
def oXORI : Nat := 0x0B
def oLDW : Nat := 0x0C
def oSTW : Nat := 0x0D
def oBZ : Nat := 0x0E
def oBEQ : Nat := 0x0F
def oJR : Nat := 0x10
def oHALT : Nat := 0x11
def oNOP : Nat := 0x12

/-- Instruction class, from `instruction_decoder.h`. -/
inductive InstrType where
  | R_TYPE
  | I_TYPE
  | INVALID_TYPE
deriving DecidableEq, BEq

/-- Decoded instruction record, from `instruction_decoder.h`.  The
`opcode` field is the raw 6-bit value (the C enum is an `int`), the
`immediate` field is the C `int` holding the sign-extended value. -/
structure DecodedInstruction where
  opcode : Nat
  type : InstrType
  rs : Nat
  rt : Nat
  rd : Nat
  immediate : Int
deriving DecidableEq, BEq

/-- `get_instruction_type` from `instruction_decoder.c`. -/
def get_instruction_type (op : Nat) : InstrType :=
  if op == oADD || op == oSUB || op == oMUL ||
     op == oOR || op == oAND || op == oXOR then .R_TYPE
  else if op == oADDI || op == oSUBI || op == oMULI ||
          op == oORI || op == oANDI || op == oXORI ||
          op == oLDW || op == oSTW ||
          op == oBZ || op == oBEQ || op == oJR || op == oHALT ||
          op == oNOP then .I_TYPE
  else .INVALID_TYPE

/-- `decode_instruction` from `instruction_decoder.c`.  Note that in the
`INVALID_TYPE` case the C code only prints a warning: the raw opcode is
kept and the zero-initialised fields remain. -/
def decode_instruction (w : Nat) : DecodedInstruction :=
  let op := (w / 67108864) % 64
  match get_instruction_type op with
  | .R_TYPE =>
    { opcode := op, type := .R_TYPE,
      rs := (w / 2097152) % 32, rt := (w / 65536) % 32,
      rd := (w / 2048) % 32, immediate := 0 }
  | .I_TYPE =>
    { opcode := op, type := .I_TYPE,
      rs := (w / 2097152) % 32, rt := (w / 65536) % 32,
      rd := 0, immediate := signExt16 (w % 65536) }
  | .INVALID_TYPE =>
    { opcode := op, type := .INVALID_TYPE,
      rs := 0, rt := 0, rd := 0, immediate := 0 }

/-- Errors of the embedded semantics: `exit(1)` on an unknown opcode in
`simulate_instruction`, undefined behaviour from an out-of-bounds memory
index, and fuel exhaustion of a driver loop. -/
inductive SimErr where
  | unknownOpcode
  | oobAccess
  | fuel
deriving DecidableEq, BEq

/-- The architectural machine state together with the tracking arrays and
instruction-class counters of `functional_sim.c` (`MachineState`,
`register_written`, `memory_changed` and the five counters). -/
structure SimState where
  pc : Nat
  registers : Nat → Nat
  memory : Nat → Nat
  regWritten : Nat → Bool
  memChanged : Nat → Bool
  totalInstructions : Nat
  arithmetic_instructions : Nat
  logical_instructions : Nat
  memory_access_instructions : Nat
  control_transfer_instructions : Nat

/-- The opcodes whose I-form writes register `rt` (the repeated list in
`simulate_instruction` and `get_dest_reg`). -/
def isWriteOp (op : Nat) : Bool :=
  op == oADDI || op == oSUBI || op == oMULI ||
  op == oORI || op == oANDI || op == oXORI || op == oLDW

/-- The `register_written` marking at the top of `simulate_instruction`
(`functional_sim.c` lines 75-90).  Only the tracking array is guarded
against an R0 destination; the register write in the switch below is not. -/
def markDest (instr : DecodedInstruction) (rw : Nat → Bool) : Nat → Bool :=
  if instr.type == .R_TYPE && instr.rd == 0 then rw
  else if instr.type == .I_TYPE && isWriteOp instr.opcode && instr.rt == 0 then rw
  else if instr.type == .R_TYPE then updB rw instr.rd true
  else if isWriteOp instr.opcode then updB rw instr.rt true
  else rw

/-- `simulate_instruction` from `functional_sim.c`.  The unaligned-access
check for LDW/STW only prints a diagnostic in C and is therefore absent
here; an index outside `memory[0..1023]` is undefined behaviour in C and
is modelled as an `oobAccess` error; the `exit(1)` in the default case is
the `unknownOpcode` error. -/
def simulate_instruction (instr : DecodedInstruction) (s0 : SimState) :
    Except SimErr SimState :=
  let s := { s0 with regWritten := markDest instr s0.regWritten,
                     totalInstructions := s0.totalInstructions + 1 }
  if instr.opcode == oADD then
    .ok { s with registers := upd s.registers instr.rd
                   (wrap32 (s.registers instr.rs + s.registers instr.rt)),
                 arithmetic_instructions := s.arithmetic_instructions + 1,
                 pc := wrap32 (s.pc + 4) }
  else if instr.opcode == oADDI then
    .ok { s with registers := upd s.registers instr.rt
                   (wrap32 (s.registers instr.rs + pat32 instr.immediate)),
                 arithmetic_instructions := s.arithmetic_instructions + 1,
                 pc := wrap32 (s.pc + 4) }
  else if instr.opcode == oSUB then
    .ok { s with registers := upd s.registers instr.rd
                   (wsub (s.registers instr.rs) (s.registers instr.rt)),
                 arithmetic_instructions := s.arithmetic_instructions + 1,
                 pc := wrap32 (s.pc + 4) }
  else if instr.opcode == oSUBI then
    .ok { s with registers := upd s.registers instr.rt
                   (wsub (s.registers instr.rs) (pat32 instr.immediate)),
                 arithmetic_instructions := s.arithmetic_instructions + 1,
                 pc := wrap32 (s.pc + 4) }
  else if instr.opcode == oMUL then
    .ok { s with registers := upd s.registers instr.rd
                   (wrap32 (s.registers instr.rs * s.registers instr.rt)),
                 arithmetic_instructions := s.arithmetic_instructions + 1,
                 pc := wrap32 (s.pc + 4) }
  else if instr.opcode == oMULI then
    .ok { s with registers := upd s.registers instr.rt
                   (wrap32 (s.registers instr.rs * pat32 instr.immediate)),
                 arithmetic_instructions := s.arithmetic_instructions + 1,
                 pc := wrap32 (s.pc + 4) }
  else if instr.opcode == oOR then
    .ok { s with registers := upd s.registers instr.rd
                   (Nat.lor (s.registers instr.rs) (s.registers instr.rt)),
                 logical_instructions := s.logical_instructions + 1,
                 pc := wrap32 (s.pc + 4) }
  else if instr.opcode == oORI then
    .ok { s with registers := upd s.registers instr.rt
                   (Nat.lor (s.registers instr.rs) (pat32 instr.immediate)),
                 logical_instructions := s.logical_instructions + 1,
                 pc := wrap32 (s.pc + 4) }
  else if instr.opcode == oAND then
    .ok { s with registers := upd s.registers instr.rd
                   (Nat.land (s.registers instr.rs) (s.registers instr.rt)),
                 logical_instructions := s.logical_instructions + 1,
                 pc := wrap32 (s.pc + 4) }
  else if instr.opcode == oANDI then
    .ok { s with registers := upd s.registers instr.rt
                   (Nat.land (s.registers instr.rs) (pat32 instr.immediate)),
                 logical_instructions := s.logical_instructions + 1,
                 pc := wrap32 (s.pc + 4) }
  else if instr.opcode == oXOR then
    .ok { s with registers := upd s.registers instr.rd
                   (Nat.xor (s.registers instr.rs) (s.registers instr.rt)),
                 logical_instructions := s.logical_instructions + 1,
                 pc := wrap32 (s.pc + 4) }
  else if instr.opcode == oXORI then
    .ok { s with registers := upd s.registers instr.rt
                   (Nat.xor (s.registers instr.rs) (pat32 instr.immediate)),
                 logical_instructions := s.logical_instructions + 1,
                 pc := wrap32 (s.pc + 4) }
  else if instr.opcode == oLDW then
    let idx := Int.tdiv (toSigned (wrap32 (s.registers instr.rs + pat32 instr.immediate))) 4
    if idx < 0 || 1024 ≤ idx then .error .oobAccess
    else
      .ok { s with registers := upd s.registers instr.rt (s.memory idx.toNat),
                   memory_access_instructions := s.memory_access_instructions + 1,
                   pc := wrap32 (s.pc + 4) }
  else if instr.opcode == oSTW then
    let idx := Int.tdiv (toSigned (wrap32 (s.registers instr.rs + pat32 instr.immediate))) 4
    if idx < 0 || 1024 ≤ idx then .error .oobAccess
    else
      .ok { s with memory := upd s.memory idx.toNat (s.registers instr.rt),
                   memChanged := updB s.memChanged idx.toNat true,
                   memory_access_instructions := s.memory_access_instructions + 1,
                   pc := wrap32 (s.pc + 4) }
  else if instr.opcode == oBZ then
    if s.registers instr.rs == 0 then
      .ok { s with pc := pat32 ((s.pc : Int) + instr.immediate * 4),
                   control_transfer_instructions := s.control_transfer_instructions + 1 }
    else
      .ok { s with control_transfer_instructions := s.control_transfer_instructions + 1,
                   pc := wrap32 (s.pc + 4) }
  else if instr.opcode == oBEQ then
    if s.registers instr.rs == s.registers instr.rt then
      .ok { s with pc := pat32 ((s.pc : Int) + instr.immediate * 4),
                   control_transfer_instructions := s.control_transfer_instructions + 1 }
    else
      .ok { s with control_transfer_instructions := s.control_transfer_instructions + 1,
                   pc := wrap32 (s.pc + 4) }
  else if instr.opcode == oJR then
    .ok { s with pc := wrap32 (s.registers instr.rs),
                 control_transfer_instructions := s.control_transfer_instructions + 1 }
  else if instr.opcode == oHALT then
    .ok { s with control_transfer_instructions := s.control_transfer_instructions + 1,
                 pc := wrap32 (s.pc + 4) }
  else if instr.opcode == oNOP then
    .ok { s with pc := wrap32 (s.pc + 4) }
  else
    .error .unknownOpcode

/-- The FS-mode loop of `main` in `functional_sim.c`: fetch at `pc`,
decode, execute, stop after a HALT commits or when `pc` leaves the 4 KiB
image.  `fuel` bounds the number of iterations of the (otherwise
unbounded) C `while (1)` loop. -/
def fsRun (fuel : Nat) (s : SimState) : Except SimErr SimState :=
  match fuel with
  | 0 => .error .fuel
  | fuel + 1 =>
    if 4096 ≤ s.pc then .ok s
    else
      let d := decode_instruction (s.memory (s.pc / 4))
      match simulate_instruction d s with
      | .error e => .error e
      | .ok s1 => if d.opcode == oHALT then .ok s1 else fsRun fuel s1

/-- Memory populated from a list of image words (word `i` of the image at
index `i`, the rest zero), as `read_memory_image` leaves it for a valid
image after `initialize_machine_state` zeroed it. -/
def mkMem (ws : List Nat) : Nat → Nat :=
  fun i => ((ws.get? i).getD 0)

/-- The zeroed machine state built by `initialize_machine_state`, with
memory already populated from an image. -/
def initArch (mem : Nat → Nat) : SimState :=
  { pc := 0, registers := fun _ => 0, memory := mem,
    regWritten := fun _ => false, memChanged := fun _ => false,
    totalInstructions := 0, arithmetic_instructions := 0,
    logical_instructions := 0, memory_access_instructions := 0,
    control_transfer_instructions := 0 }

/-! Pipeline structures shared by `no_fwd.c` and `with_fwd.c`. -/

/-- Pipeline latch (`PipelineRegister` in `no_fwd.h`). -/
structure PipelineRegister where
  instr : DecodedInstruction
  valid : Bool
  pc : Nat
  branch_taken : Bool
  branch_target : Nat
  result_val : Nat
deriving DecidableEq, BEq

/-- `NOP_INSTRUCTION` from `global_counters.c`. -/
def NOP_INSTRUCTION : DecodedInstruction :=
  { opcode := oNOP, type := .I_TYPE, rs := 0, rt := 0, rd := 0, immediate := 0 }

/-- A latch after `insert_nop` (`no_fwd.c`). -/
def nopReg : PipelineRegister :=
  { instr := NOP_INSTRUCTION, valid := false, pc := 0,
    branch_taken := false, branch_target := 0, result_val := 0 }

/-- `is_nop` from `no_fwd.c`. -/
def is_nop (instr : DecodedInstruction) : Bool := instr.opcode == oNOP

/-- `get_dest_reg` from `no_fwd.c`; `-1` is the C sentinel for "no
destination register". -/
def get_dest_reg (instr : DecodedInstruction) : Int :=
  if instr.type == .R_TYPE then (instr.rd : Int)
  else if isWriteOp instr.opcode then (instr.rt : Int)
  else -1

/-- `instr_writes_to_reg` from `with_fwd.c`. -/
def instr_writes_to_reg (instr : DecodedInstruction) : Bool :=
  if instr.type == .R_TYPE && instr.rd != 0 then true
  else if instr.type == .I_TYPE && instr.rt != 0 then isWriteOp instr.opcode
  else false

/-- The whole state of a pipeline simulator: the five latches, the
architectural state, the fetch PC, the halt-fetched flag and the cycle,
stall and flush counters (`no_fwd.c`/`with_fwd.c` statics and
`global_counters.c`). -/
structure PipeState where
  stIF : PipelineRegister
  stID : PipelineRegister
  stEX : PipelineRegister
  stMEM : PipelineRegister
  stWB : PipelineRegister
  arch : SimState
  pipeline_pc : Nat
  halt_seen : Bool
  clock_cycles : Nat
  total_stalls : Nat
  total_flushes : Nat

/-- The state after `initialize_pipeline`: all latches NOPs, counters
zeroed, fetch PC zero (the architectural state was set up by `main`). -/
def initPipe (mem : Nat → Nat) : PipeState :=
  { stIF := nopReg, stID := nopReg, stEX := nopReg, stMEM := nopReg,
    stWB := nopReg, arch := initArch mem, pipeline_pc := 0,
    halt_seen := false, clock_cycles := 0, total_stalls := 0,
    total_flushes := 0 }

/-- `detect_raw_hazard` from `no_fwd.c`. -/
def detect_raw_hazard (idR exR memR : PipelineRegister) : Bool :=
  if !idR.valid || is_nop idR.instr || idR.instr.opcode == oHALT then false
  else
    let src1 : Int := (idR.instr.rs : Int)
    let src2 : Int :=
      if idR.instr.type == .R_TYPE || idR.instr.opcode == oBEQ then (idR.instr.rt : Int)
      else if idR.instr.opcode == oSTW then (idR.instr.rt : Int)
      else -1
    let src1 := if src1 == 0 then -1 else src1
    let src2 := if src2 == 0 then -1 else src2
    let exHit :=
      if exR.valid && !is_nop exR.instr then
        let d := get_dest_reg exR.instr
        let d := if d == 0 then -1 else d
        d != -1 && (d == src1 || (src2 != -1 && d == src2))
      else false
    if exHit then true
    else if memR.valid && !is_nop memR.instr then
      let d := get_dest_reg memR.instr
      let d := if d == 0 then -1 else d
      d != -1 && (d == src1 || (src2 != -1 && d == src2))
    else false

/-! The no-forwarding pipeline, `no_fwd.c`. -/

/-- The WB phase of `simulate_one_cycle_no_forwarding_internal`: if WB
holds a valid non-NOP instruction, set the architectural PC to the
latch's PC and commit through `simulate_instruction`. -/
def nfWbPhase (s : PipeState) : Except SimErr PipeState :=
  if s.stWB.valid && !is_nop s.stWB.instr then
    match simulate_instruction s.stWB.instr { s.arch with pc := s.stWB.pc } with
    | .error e => .error e
    | .ok a => .ok { s with arch := a }
  else .ok s

/-- Branch resolution in EX (`no_fwd.c` lines 278-312): returns the
taken flag and the new fetch PC, reading the architectural registers. -/
def nfResolveBranch (s : PipeState) : Bool × Nat :=
  if s.stEX.valid && !is_nop s.stEX.instr &&
     (s.stEX.instr.opcode == oBEQ || s.stEX.instr.opcode == oBZ ||
      s.stEX.instr.opcode == oJR) then
    if s.stEX.instr.opcode == oBZ then
      if s.arch.registers s.stEX.instr.rs == 0 then
        (true, pat32 ((s.stEX.pc : Int) + s.stEX.instr.immediate * 4))
      else (false, s.pipeline_pc)
    else if s.stEX.instr.opcode == oBEQ then
      if s.arch.registers s.stEX.instr.rs == s.arch.registers s.stEX.instr.rt then
        (true, pat32 ((s.stEX.pc : Int) + s.stEX.instr.immediate * 4))
      else (false, s.pipeline_pc)
    else if s.stEX.instr.opcode == oJR then
      (true, wrap32 (s.arch.registers s.stEX.instr.rs))
    else (false, s.pipeline_pc)
  else (false, s.pipeline_pc)

/-- The RAW-stall decision of a no-forwarding cycle (`no_fwd.c` lines
314-327): the gate on the ID latch and `detect_raw_hazard`. -/
def nfStallFires (idR exR memR : PipelineRegister) : Bool :=
  (idR.valid && !is_nop idR.instr && !(idR.instr.opcode == oHALT)) &&
  detect_raw_hazard idR exR memR

/-- Latch advancement and fetch of a no-forwarding cycle (`no_fwd.c`
lines 329-378).  The fetch condition consults only the stall flag, the
halt flag and the fetch PC bound — not the flush flag, so on a taken
branch the instruction at the branch target is fetched into IF in the
same cycle. -/
def nfShiftFetch (s : PipeState) (stall flush : Bool) : PipeState :=
  let wbL := s.stMEM
  let memL := s.stEX
  let exL := if stall then nopReg else if flush then nopReg else s.stID
  let idL := if stall then s.stID else if flush then nopReg else s.stIF
  let ifL := if stall then s.stIF else nopReg
  if !stall && !s.halt_seen && s.pipeline_pc < 4096 then
    let d := decode_instruction (s.arch.memory (s.pipeline_pc / 4))
    { s with stWB := wbL, stMEM := memL, stEX := exL, stID := idL,
             stIF := { instr := d, valid := true, pc := s.pipeline_pc,
                       branch_taken := false, branch_target := 0, result_val := 0 },
             halt_seen := if d.opcode == oHALT then true else s.halt_seen,
             pipeline_pc := wrap32 (s.pipeline_pc + 4) }
  else if !stall && s.halt_seen then
    { s with stWB := wbL, stMEM := memL, stEX := exL, stID := idL, stIF := nopReg }
  else if !stall && !s.halt_seen && 4096 ≤ s.pipeline_pc then
    { s with stWB := wbL, stMEM := memL, stEX := exL, stID := idL,
             stIF := nopReg, halt_seen := true }
  else
    { s with stWB := wbL, stMEM := memL, stEX := exL, stID := idL, stIF := ifL }

/-- The pure part of a no-forwarding cycle after the WB commit: branch
resolution, hazard detection, latch advancement and fetch. -/
def nfRest (s : PipeState) : PipeState :=
  let rb := nfResolveBranch s
  let s1 := { s with pipeline_pc := rb.2,
                     total_flushes := if rb.1 then s.total_flushes + 2
                                      else s.total_flushes }
  let stall := nfStallFires s1.stID s1.stEX s1.stMEM
  let s2 := if stall then { s1 with total_stalls := s1.total_stalls + 1 } else s1
  nfShiftFetch s2 stall rb.1

/-- `simulate_one_cycle_no_forwarding_internal` from `no_fwd.c`. -/
def nfCycle (s : PipeState) : Except SimErr PipeState :=
  (nfWbPhase { s with clock_cycles := s.clock_cycles + 1 }).map nfRest

/-- True when some latch holds a valid non-NOP instruction (the
`active_instructions_remaining` scan of both driver loops). -/
def anyActive (s : PipeState) : Bool :=
  (s.stIF.valid && !(s.stIF.instr.opcode == oNOP)) ||
  (s.stID.valid && !(s.stID.instr.opcode == oNOP)) ||
  (s.stEX.valid && !(s.stEX.instr.opcode == oNOP)) ||
  (s.stMEM.valid && !(s.stMEM.instr.opcode == oNOP)) ||
  (s.stWB.valid && !(s.stWB.instr.opcode == oNOP))

/-- The driver loop of `simulate_pipeline_no_forwarding` (`no_fwd.c`
lines 400-443): run cycles until HALT reaches WB (then retire it by the
manual increments of the loop body) or the pipeline drains or the cycle
cap trips. -/
def nfLoop (fuel : Nat) (s : PipeState) : Except SimErr PipeState :=
  match fuel with
  | 0 => .error .fuel
  | fuel + 1 =>
    match nfCycle s with
    | .error e => .error e
    | .ok s1 =>
      if s1.stWB.valid && s1.stWB.instr.opcode == oHALT then
        .ok { s1 with arch :=
          { s1.arch with
            pc := wrap32 (s1.arch.pc + 4),
            totalInstructions := s1.arch.totalInstructions + 1,
            control_transfer_instructions :=
              s1.arch.control_transfer_instructions + 1 } }
      else if !anyActive s1 && s1.halt_seen then .ok s1
      else if 200000 < s1.clock_cycles then .ok s1
      else nfLoop fuel s1

/-! The with-forwarding pipeline, `with_fwd.c`. -/

/-- The WB phase of `simulate_one_cycle_with_forwarding_internal`:
commit through `simulate_instruction`, then overwrite the architectural
PC with the WB latch's PC (in this order in the C source). -/
def wfWbPhase (s : PipeState) : Except SimErr PipeState :=
  if s.stWB.valid && !is_nop s.stWB.instr then
    match simulate_instruction s.stWB.instr s.arch with
    | .error e => .error e
    | .ok a => .ok { s with arch := { a with pc := s.stWB.pc } }
  else .ok s

/-- The MEM phase (`with_fwd.c` lines 163-190): LDW loads into the MEM
latch's `result_val`, STW writes the latch's `result_val` to memory at
the latched effective address — both only when the address is aligned
and inside the 4 KiB memory. -/
def wfMemPhase (s : PipeState) : PipeState :=
  if s.stMEM.valid && !is_nop s.stMEM.instr then
    let eff := s.stMEM.branch_target
    if s.stMEM.instr.opcode == oLDW then
      if eff < 4096 && eff % 4 == 0 then
        { s with stMEM := { s.stMEM with result_val := s.arch.memory (eff / 4) } }
      else
        { s with stMEM := { s.stMEM with result_val := 0 } }
    else if s.stMEM.instr.opcode == oSTW then
      if eff < 4096 && eff % 4 == 0 then
        { s with arch := { s.arch with
            memory := upd s.arch.memory (eff / 4) s.stMEM.result_val,
            memChanged := updB s.arch.memChanged (eff / 4) true } }
      else s
    else s
  else s

/-- Forwarded first operand of the EX stage (`with_fwd.c` lines
207-219): MEM-latch output first, then WB-latch output, else the
architectural register file. -/
def wfFwd (s : PipeState) (r : Nat) : Nat :=
  if s.stMEM.valid && instr_writes_to_reg s.stMEM.instr &&
     get_dest_reg s.stMEM.instr == (r : Int) && !(r == 0) then
    s.stMEM.result_val
  else if s.stWB.valid && instr_writes_to_reg s.stWB.instr &&
          get_dest_reg s.stWB.instr == (r : Int) && !(r == 0) then
    s.stWB.result_val
  else s.arch.registers r

/-- The operand resolution and switch of the EX stage (`with_fwd.c`
lines 199-320), on the state whose stale `branch_taken` bits were
already cleared: returns the new `result_val`, `branch_target` and
`branch_taken` of the EX latch. -/
def wfExCompute (s : PipeState) : Nat × Nat × Bool :=
  let ie := s.stEX.instr
  let val_rs := wfFwd s ie.rs
  let val_rt :=
    if ie.type == .R_TYPE || ie.opcode == oBEQ || ie.opcode == oSTW then
      wfFwd s ie.rt
    else s.arch.registers ie.rt
  let pcEx := s.stEX.pc
  if ie.opcode == oADD then (wrap32 (val_rs + val_rt), s.stEX.branch_target, false)
  else if ie.opcode == oSUB then (wsub val_rs val_rt, s.stEX.branch_target, false)
  else if ie.opcode == oMUL then (wrap32 (val_rs * val_rt), s.stEX.branch_target, false)
  else if ie.opcode == oOR then (Nat.lor val_rs val_rt, s.stEX.branch_target, false)
  else if ie.opcode == oAND then (Nat.land val_rs val_rt, s.stEX.branch_target, false)
  else if ie.opcode == oXOR then (Nat.xor val_rs val_rt, s.stEX.branch_target, false)
  else if ie.opcode == oADDI then
    (wrap32 (val_rs + pat32 ie.immediate), s.stEX.branch_target, false)
  else if ie.opcode == oSUBI then
    (wsub val_rs (pat32 ie.immediate), s.stEX.branch_target, false)
  else if ie.opcode == oMULI then
    (wrap32 (val_rs * pat32 ie.immediate), s.stEX.branch_target, false)
  else if ie.opcode == oORI then
    (Nat.lor val_rs (Nat.land (pat32 ie.immediate) 65535), s.stEX.branch_target, false)
  else if ie.opcode == oANDI then
    (Nat.land val_rs (Nat.land (pat32 ie.immediate) 65535), s.stEX.branch_target, false)
  else if ie.opcode == oXORI then
    (Nat.xor val_rs (Nat.land (pat32 ie.immediate) 65535), s.stEX.branch_target, false)
  else if ie.opcode == oLDW then
    (0, wrap32 (val_rs + pat32 ie.immediate), false)
  else if ie.opcode == oSTW then
    (val_rt, wrap32 (val_rs + pat32 ie.immediate), false)
  else if ie.opcode == oBZ then
    if val_rs == 0 then (0, pat32 ((pcEx : Int) + ie.immediate * 4), true)
    else (0, s.stEX.branch_target, false)
  else if ie.opcode == oBEQ then
    if val_rs == val_rt then (0, pat32 ((pcEx : Int) + ie.immediate * 4), true)
    else (0, s.stEX.branch_target, false)
  else if ie.opcode == oJR then
    (0, wrap32 val_rs, true)
  else (0, s.stEX.branch_target, false)

/-- The EX phase (`with_fwd.c` lines 192-330): clears the stale
`branch_taken` bits, runs `wfExCompute` on a valid non-NOP EX latch, and
on a taken branch redirects the fetch PC and counts two flushes.
Returns the `flush_for_branch` flag. -/
def wfExPhase (s0 : PipeState) : PipeState × Bool :=
  let s := { s0 with stEX := { s0.stEX with branch_taken := false },
                     stMEM := { s0.stMEM with branch_taken := false },
                     stWB := { s0.stWB with branch_taken := false } }
  if s.stEX.valid && !is_nop s.stEX.instr then
    let out := wfExCompute s
    let ex2 : PipelineRegister :=
      { s.stEX with result_val := out.1
                    branch_target := out.2.1
                    branch_taken := out.2.2 }
    let s1 := { s with stEX := ex2 }
    if ex2.branch_taken then
      ({ s1 with pipeline_pc := ex2.branch_target,
                 total_flushes := s1.total_flushes + 2 }, true)
    else (s1, false)
  else
    ({ s with stEX := { s.stEX with result_val := 0 } }, false)

/-- The load-use stall decision of a with-forwarding cycle (`with_fwd.c`
lines 332-350). -/
def wfStallOf (exR idR : PipelineRegister) : Bool :=
  exR.valid && exR.instr.opcode == oLDW && instr_writes_to_reg exR.instr &&
  (let d := get_dest_reg exR.instr
   !(d == 0) && idR.valid && !is_nop idR.instr &&
   ((idR.instr.rs : Int) == d ||
    ((idR.instr.type == .R_TYPE || idR.instr.opcode == oBEQ ||
      idR.instr.opcode == oSTW) && (idR.instr.rt : Int) == d)))

/-- Latch advancement and fetch of a with-forwarding cycle (`with_fwd.c`
lines 355-408).  The C code clears `flush_for_branch` while squashing ID
and IF, so the fetch block below it sees the flag as false and fetches
from the (redirected) fetch PC in the same cycle; only a load-use stall
suppresses the fetch. -/
def wfShiftFetch (s : PipeState) (stall flush : Bool) : PipeState :=
  let wbL := s.stMEM
  let memL := s.stEX
  let exL := if stall || flush then nopReg else s.stID
  let idL := if flush then nopReg else if stall then s.stID else s.stIF
  let ifL := if flush then nopReg else if stall then s.stIF else nopReg
  if stall then
    { s with stWB := wbL, stMEM := memL, stEX := exL, stID := idL, stIF := ifL }
  else if !s.halt_seen && s.pipeline_pc < 4096 then
    let d := decode_instruction (s.arch.memory (s.pipeline_pc / 4))
    { s with stWB := wbL, stMEM := memL, stEX := exL, stID := idL,
             stIF := { instr := d, valid := true, pc := s.pipeline_pc,
                       branch_taken := false, branch_target := 0, result_val := 0 },
             halt_seen := if d.opcode == oHALT then true else s.halt_seen,
             pipeline_pc := wrap32 (s.pipeline_pc + 4) }
  else
    { s with stWB := wbL, stMEM := memL, stEX := exL, stID := idL,
             stIF := nopReg,
             halt_seen := if 4096 ≤ s.pipeline_pc && !s.halt_seen then true
                          else s.halt_seen }

/-- The pure part of a with-forwarding cycle after the WB commit. -/
def wfRest (s : PipeState) : PipeState :=
  let s1 := wfMemPhase s
  let p := wfExPhase s1
  let stall := wfStallOf p.1.stEX p.1.stID
  let s2 := if stall then { p.1 with total_stalls := p.1.total_stalls + 1 } else p.1
  wfShiftFetch s2 stall p.2

/-- `simulate_one_cycle_with_forwarding_internal` from `with_fwd.c`. -/
def wfCycle (s : PipeState) : Except SimErr PipeState :=
  (wfWbPhase { s with clock_cycles := s.clock_cycles + 1 }).map wfRest

/-- The driver loop of `simulate_pipeline_with_forwarding` (`with_fwd.c`
lines 417-446): when HALT reaches WB it is retired through
`simulate_instruction` and the loop stops; the final `state.pc += 4` of
the C function is applied by `wfRun` below. -/
def wfLoop (fuel : Nat) (s : PipeState) : Except SimErr PipeState :=
  match fuel with
  | 0 => .error .fuel
  | fuel + 1 =>
    if s.stWB.valid && s.stWB.instr.opcode == oHALT then
      match simulate_instruction s.stWB.instr s.arch with
      | .error e => .error e
      | .ok a => .ok { s with arch := a }
    else if !anyActive s && (s.halt_seen || 4096 ≤ s.pipeline_pc) then .ok s
    else
      match wfCycle s with
      | .error e => .error e
      | .ok s1 => if 100000 < s1.clock_cycles then .ok s1 else wfLoop fuel s1

/-- `simulate_pipeline_with_forwarding`: the loop followed by the final
`state.pc += 4`. -/
def wfRun (fuel : Nat) (s : PipeState) : Except SimErr PipeState :=
  (wfLoop fuel s).map fun s1 =>
    { s1 with arch := { s1.arch with pc := wrap32 (s1.arch.pc + 4) } }

/-! The memory-image reader, `trace_reader.c`.  The file is abstracted
as the sequence of outcomes of the `fscanf("%x")` calls: `some v` for a
successfully parsed hexadecimal word, `none` when the scan stops
(end of file or a token that is not a hexadecimal number — `fscanf`
returns 0 on such a matching failure and the `while` loop simply
exits). -/

/-- The read loop of `read_memory_image`: `none` models the C function
returning `-1` (image larger than 1024 words); otherwise the word count
and the populated memory are returned. -/
def readWords (tokens : List (Option Nat)) (count : Nat) (mem : Nat → Nat) :
    Option (Nat × (Nat → Nat)) :=
  match tokens with
  | [] => some (count, mem)
  | none :: _ => some (count, mem)
  | some v :: rest =>
    if 1024 ≤ count then none
    else readWords rest (count + 1) (upd mem count v)

/-- `read_memory_image` from `trace_reader.c` on an already-opened file
(the open failure is a separate, earlier exit in C). -/
def read_memory_image (tokens : List (Option Nat)) (mem : Nat → Nat) :
    Option (Nat × (Nat → Nat)) :=
  readWords tokens 0 mem

/-- The number of leading well-formed hexadecimal tokens — the words the
reader consumes before stopping. -/
def leadCount (tokens : List (Option Nat)) : Nat :=
  match tokens with
  | [] => 0
  | none :: _ => 0
  | some _ :: rest => leadCount rest + 1

/-- The value of token `i`, for positions below `leadCount`. -/
def tokenVal (tokens : List (Option Nat)) (i : Nat) : Nat :=
  (((tokens.get? i).getD none).getD 0)

/-- The branch target computed for a BZ/BEQ resolved in EX:
`PC_of_branch + immediate * 4` (`no_fwd.c` line 292, `with_fwd.c` line
293). -/
def branchTargetOf (r : PipelineRegister) : Nat :=
  pat32 ((r.pc : Int) + r.instr.immediate * 4)

/-- The condition of `print_final_state` (`functional_sim.c` line 245)
under which register `i` appears in the final register dump. -/
def printsReg (s : SimState) (i : Nat) : Bool :=
  s.regWritten i || !(s.registers i == 0)

/-! Predicates written from the words of claim C9, for comparison with
the code's stall condition. -/

/-- The destination register of "an instruction that writes a register
(not branches, not STW, not HALT, not NOP)", as claim C9 words it:
`rd` for the R-class ALU opcodes, `rt` for the I-class write opcodes,
nothing otherwise. -/
def claimDest (i : DecodedInstruction) : Option Nat :=
  if i.opcode == oADD || i.opcode == oSUB || i.opcode == oMUL ||
     i.opcode == oOR || i.opcode == oAND || i.opcode == oXOR then some i.rd
  else if isWriteOp i.opcode then some i.rt
  else none

/-- The stall predicate exactly as claim C9 states it: the instruction
in ID has a non-zero source register (`rs` always; `rt` when the ID
instruction is R-class, BEQ, or STW) equal to the destination register
of an instruction currently in EX or MEM that writes a register. -/
def specStallPredC9 (idR exR memR : PipelineRegister) : Bool :=
  let i := idR.instr
  let useRt := i.type == .R_TYPE || i.opcode == oBEQ || i.opcode == oSTW
  let srcHit (p : PipelineRegister) : Bool :=
    p.valid &&
    (match claimDest p.instr with
     | some d => (!(i.rs == 0) && d == i.rs) || (useRt && !(i.rt == 0) && d == i.rt)
     | none => false)
  idR.valid && (srcHit exR || srcHit memR)

/-! Concrete machine and pipeline states used by individual claims. -/

/-- C3 counterexample state: a cycle with a bubble in WB (so no commit
is possible) but a store sitting in the MEM latch with an aligned
in-bounds latched address. -/
def c3CexSt : PipeState :=
  { initPipe (fun _ => 0) with
    stMEM := { instr := { opcode := oSTW, type := .I_TYPE, rs := 0, rt := 0,
                          rd := 0, immediate := 0 },
               valid := true, pc := 0, branch_taken := false,
               branch_target := 0, result_val := 7 },
    halt_seen := true }

/-- C3 witness state: an entirely drained pipeline. -/
def c3WitSt : PipeState :=
  { initPipe (fun _ => 0) with halt_seen := true }

/-- C4 state: `ORI R1, R0, 0x8000` sitting in the EX latch of the
with-forwarding pipeline. -/
def c4ExSt : PipeState :=
  { initPipe (fun _ => 0) with
    stEX := { instr := decode_instruction 0x1C018000, valid := true, pc := 0,
              branch_taken := false, branch_target := 0, result_val := 0 },
    halt_seen := true }

/-- C8 state: a taken `BZ R0, +2` in the EX latch of the no-forwarding
pipeline, with `ADDI R1, R0, 9` at the branch target (byte address 8). -/
def c8St : PipeState :=
  { initPipe (mkMem [0, 0, 0x04010009]) with
    stEX := { instr := decode_instruction 0x38000002, valid := true, pc := 0,
              branch_taken := false, branch_target := 0, result_val := 0 } }

/-- C9 counterexample state: ID holds a HALT whose encoding carries
`rs = 1` (word `0x44200000`), EX holds `ADDI R1, R0, 0` — the claim's
stall predicate matches, the code's does not. -/
def c9CexSt : PipeState :=
  { initPipe (fun _ => 0) with
    stID := { instr := decode_instruction 0x44200000, valid := true, pc := 4,
              branch_taken := false, branch_target := 0, result_val := 0 },
    stEX := { instr := decode_instruction 0x04010000, valid := true, pc := 0,
              branch_taken := false, branch_target := 0, result_val := 0 },
    halt_seen := true }

/-- C9 witness state: a genuine RAW hazard — `ADD R2, R1, R1` in ID
behind `ADDI R1, R0, 5` in EX. -/
def c9WitSt : PipeState :=
  { initPipe (fun _ => 0) with
    stID := { instr := decode_instruction 0x00211000, valid := true, pc := 4,
              branch_taken := false, branch_target := 0, result_val := 0 },
    stEX := { instr := decode_instruction 0x04010005, valid := true, pc := 0,
              branch_taken := false, branch_target := 0, result_val := 0 },
    halt_seen := true }

/-- C10 counterexample state: an STW in the MEM latch whose latched
effective address (1) is unaligned — the MEM stage performs no write. -/
def c10CexSt : PipeState :=
  { initPipe (fun _ => 0) with
    stMEM := { instr := { opcode := oSTW, type := .I_TYPE, rs := 0, rt := 0,
                          rd := 0, immediate := 0 },
               valid := true, pc := 0, branch_taken := false,
               branch_target := 1, result_val := 7 },
    halt_seen := true }

/-- C10 divergence state: `STW R2, 0(R1)` in MEM with a latched address
of 0 and latched data 7, while the architectural registers make the
retirement recompute address 4 and data 9. -/
def c10TwoSt : PipeState :=
  { initPipe (fun _ => 0) with
    stMEM := { instr := decode_instruction 0x34220000, valid := true, pc := 0,
               branch_taken := false, branch_target := 0, result_val := 7 },
    arch := { initArch (fun _ => 0) with
              registers := fun j => if j = 1 then 4 else if j = 2 then 9 else 0 },
    halt_seen := true }

/-- C10 witness state: an STW in MEM with an aligned in-bounds latched
address 4 and latched data 5. -/
def c10WitSt : PipeState :=
  { initPipe (fun _ => 0) with
    stMEM := { instr := { opcode := oSTW, type := .I_TYPE, rs := 0, rt := 0,
                          rd := 0, immediate := 0 },
               valid := true, pc := 0, branch_taken := false,
               branch_target := 4, result_val := 5 },
    halt_seen := true }

/-! ## Theorems -/

/-! Frame lemmas: which parts of the state each phase leaves alone. -/

/-- A no-forwarding WB phase with a bubble in WB does nothing. -/
theorem nfWbPhase_bubble {s : PipeState} (hv : s.stWB.valid = false) :
    nfWbPhase s = .ok s := by
  unfold nfWbPhase
  rw [hv]
  rfl

/-- A with-forwarding WB phase with a bubble in WB does nothing. -/
theorem wfWbPhase_bubble {s : PipeState} (hv : s.stWB.valid = false) :
    wfWbPhase s = .ok s := by
  unfold wfWbPhase
  rw [hv]
  rfl

/-- A no-forwarding cycle with a bubble in WB is the pure rest of the
cycle on the clock-incremented state. -/
theorem nfCycle_bubble {s : PipeState} (hv : s.stWB.valid = false) :
    nfCycle s = .ok (nfRest { s with clock_cycles := s.clock_cycles + 1 }) := by
  unfold nfCycle
  rw [nfWbPhase_bubble (s := { s with clock_cycles := s.clock_cycles + 1 }) hv]
  rfl

/-- A with-forwarding cycle with a bubble in WB is the pure rest of the
cycle on the clock-incremented state. -/
theorem wfCycle_bubble {s : PipeState} (hv : s.stWB.valid = false) :
    wfCycle s = .ok (wfRest { s with clock_cycles := s.clock_cycles + 1 }) := by
  unfold wfCycle
  rw [wfWbPhase_bubble (s := { s with clock_cycles := s.clock_cycles + 1 }) hv]
  rfl

/-- The no-forwarding shift/fetch step never touches the architectural
state. -/
theorem nfShiftFetch_arch (s : PipeState) (a b : Bool) :
    (nfShiftFetch s a b).arch = s.arch := by
  simp only [nfShiftFetch]
  repeat' split
  all_goals rfl

/-- The no-forwarding shift/fetch step never touches the stall and
flush counters. -/
theorem nfShiftFetch_counters (s : PipeState) (a b : Bool) :
    (nfShiftFetch s a b).total_stalls = s.total_stalls ∧
    (nfShiftFetch s a b).total_flushes = s.total_flushes := by
  simp only [nfShiftFetch]
  repeat' split
  all_goals exact ⟨rfl, rfl⟩

/-- The pure rest of a no-forwarding cycle never touches the
architectural state: with no commit there is no architectural change. -/
theorem nfRest_arch (s : PipeState) : (nfRest s).arch = s.arch := by
  unfold nfRest
  rw [nfShiftFetch_arch]
  repeat' split
  all_goals rfl

/-- The with-forwarding MEM phase can only touch memory and the
memory-changed marks of the architectural state. -/
theorem wfMemPhase_frame (s : PipeState) :
    (wfMemPhase s).arch.registers = s.arch.registers ∧
    (wfMemPhase s).arch.pc = s.arch.pc ∧
    (wfMemPhase s).arch.regWritten = s.arch.regWritten ∧
    (wfMemPhase s).arch.totalInstructions = s.arch.totalInstructions ∧
    (wfMemPhase s).arch.arithmetic_instructions = s.arch.arithmetic_instructions ∧
    (wfMemPhase s).arch.logical_instructions = s.arch.logical_instructions ∧
    (wfMemPhase s).arch.memory_access_instructions = s.arch.memory_access_instructions ∧
    (wfMemPhase s).arch.control_transfer_instructions = s.arch.control_transfer_instructions := by
  simp only [wfMemPhase]
  repeat' split
  all_goals exact ⟨rfl, rfl, rfl, rfl, rfl, rfl, rfl, rfl⟩

/-- The with-forwarding EX phase never touches the architectural
state. -/
theorem wfExPhase_arch (s : PipeState) : (wfExPhase s).1.arch = s.arch := by
  simp only [wfExPhase]
  repeat' split
  all_goals rfl

/-- The with-forwarding shift/fetch step never touches the
architectural state. -/
theorem wfShiftFetch_arch (s : PipeState) (a b : Bool) :
    (wfShiftFetch s a b).arch = s.arch := by
  simp only [wfShiftFetch]
  repeat' split
  all_goals rfl

/-- The with-forwarding shift/fetch step never touches the stall and
flush counters. -/
theorem wfShiftFetch_counters (s : PipeState) (a b : Bool) :
    (wfShiftFetch s a b).total_stalls = s.total_stalls ∧
    (wfShiftFetch s a b).total_flushes = s.total_flushes := by
  simp only [wfShiftFetch]
  repeat' split
  all_goals exact ⟨rfl, rfl⟩

/-- A successful no-forwarding WB phase changes nothing but the
architectural state. -/
theorem nfWbPhase_frame {s t : PipeState} (h : nfWbPhase s = .ok t) :
    t.stIF = s.stIF ∧ t.stID = s.stID ∧ t.stEX = s.stEX ∧ t.stMEM = s.stMEM ∧
    t.stWB = s.stWB ∧ t.pipeline_pc = s.pipeline_pc ∧ t.halt_seen = s.halt_seen ∧
    t.total_stalls = s.total_stalls ∧ t.total_flushes = s.total_flushes := by
  unfold nfWbPhase at h
  split at h
  · split at h
    · exact absurd h (by simp)
    · cases h
      exact ⟨rfl, rfl, rfl, rfl, rfl, rfl, rfl, rfl, rfl⟩
  · cases h
    exact ⟨rfl, rfl, rfl, rfl, rfl, rfl, rfl, rfl, rfl⟩

/-- Bumping the stall counter leaves the architectural state alone. -/
theorem stallBump_arch (u : PipeState) (c : Bool) :
    (if c = true then { u with total_stalls := u.total_stalls + 1 } else u).arch
      = u.arch := by
  cases c <;> rfl

/-- The pure rest of a with-forwarding cycle can only touch memory and
the memory-changed marks of the architectural state. -/
theorem wfRest_frame (s : PipeState) :
    (wfRest s).arch.registers = s.arch.registers ∧
    (wfRest s).arch.pc = s.arch.pc ∧
    (wfRest s).arch.regWritten = s.arch.regWritten ∧
    (wfRest s).arch.totalInstructions = s.arch.totalInstructions ∧
    (wfRest s).arch.arithmetic_instructions = s.arch.arithmetic_instructions ∧
    (wfRest s).arch.logical_instructions = s.arch.logical_instructions ∧
    (wfRest s).arch.memory_access_instructions = s.arch.memory_access_instructions ∧
    (wfRest s).arch.control_transfer_instructions = s.arch.control_transfer_instructions := by
  simp only [wfRest]
  rw [wfShiftFetch_arch, stallBump_arch, wfExPhase_arch]
  exact wfMemPhase_frame s

/-- C1: running the single-word image `HALT` leaves the final PC at 4 in
FS mode and in NF mode, but at 8 in WF mode (the driver's trailing
`state.pc += 4` double-counts when HALT is the first commit), while the
instruction counters agree — so the three modes do not produce identical
final PCs. -/
theorem c1_halt_image_pc_divergence :
    (fsRun 100 (initArch (mkMem [0x44000000]))).map SimState.pc = .ok 4 ∧
    (nfLoop 100 (initPipe (mkMem [0x44000000]))).map (fun t => t.arch.pc) = .ok 4 ∧
    (wfRun 100 (initPipe (mkMem [0x44000000]))).map (fun t => t.arch.pc) = .ok 8 ∧
    (fsRun 100 (initArch (mkMem [0x44000000]))).map
      (fun s => (s.totalInstructions, s.control_transfer_instructions)) = .ok (1, 1) ∧
    (nfLoop 100 (initPipe (mkMem [0x44000000]))).map
      (fun t => (t.arch.totalInstructions, t.arch.control_transfer_instructions)) = .ok (1, 1) ∧
    (wfRun 100 (initPipe (mkMem [0x44000000]))).map
      (fun t => (t.arch.totalInstructions, t.arch.control_transfer_instructions)) = .ok (1, 1) :=
  ⟨rfl, rfl, rfl, rfl, rfl, rfl⟩

/-- C2: committing `ADDI R0, R0, 5` (word `0x04000005`) writes 5 into
`R[0]` — the guard in `simulate_instruction` only skips the
`register_written` marking, not the register write itself — and the
final-state dump's condition then prints R0. -/
theorem c2_r0_visibly_written :
    (fsRun 100 (initArch (mkMem [0x04000005, 0x44000000]))).map
      (fun s => (s.registers 0, printsReg s 0)) = .ok (5, true) := rfl

/-- C3 (amended): `simulate_instruction` is the only mutator of the
architectural registers, PC and instruction counters — a cycle whose WB
latch is a bubble leaves all of them unchanged, and in NF mode the
whole architectural state — but the WF MEM stage writes memory (and the
memory-changed marks) directly for a store, and both drivers adjust the
architectural PC (and, in NF, the counters at HALT) outside the commit
entry point. -/
theorem c3_amended :
    (∀ s t, s.stWB.valid = false → nfCycle s = .ok t → t.arch = s.arch) ∧
    (∀ s t, s.stWB.valid = false → wfCycle s = .ok t →
      t.arch.registers = s.arch.registers ∧ t.arch.pc = s.arch.pc ∧
      t.arch.regWritten = s.arch.regWritten ∧
      t.arch.totalInstructions = s.arch.totalInstructions ∧
      t.arch.arithmetic_instructions = s.arch.arithmetic_instructions ∧
      t.arch.logical_instructions = s.arch.logical_instructions ∧
      t.arch.memory_access_instructions = s.arch.memory_access_instructions ∧
      t.arch.control_transfer_instructions = s.arch.control_transfer_instructions) := by
  constructor
  · intro s t hv h
    rw [nfCycle_bubble hv] at h
    cases h
    exact nfRest_arch _
  · intro s t hv h
    rw [wfCycle_bubble hv] at h
    cases h
    exact wfRest_frame _

/-- C3 witness: the amended theorem applied to a concrete drained
pipeline state. -/
theorem c3_amended_witness :
    (nfRest { c3WitSt with clock_cycles := c3WitSt.clock_cycles + 1 }).arch
      = c3WitSt.arch ∧
    (wfRest { c3WitSt with clock_cycles := c3WitSt.clock_cycles + 1 }).arch.pc
      = c3WitSt.arch.pc :=
  ⟨c3_amended.1 c3WitSt _ rfl (nfCycle_bubble rfl),
   (c3_amended.2 c3WitSt _ rfl (wfCycle_bubble rfl)).2.1⟩

/-- C3 counterexample: a with-forwarding cycle whose WB latch is a
bubble (so the commit entry point `simulate_instruction` cannot run)
still writes memory: the MEM stage stores the latched value 7 into
memory word 0. -/
theorem c3_counterexample :
    c3CexSt.stWB.valid = false ∧ c3CexSt.arch.memory 0 = 0 ∧
    (wfCycle c3CexSt).map (fun t => (t.arch.memory 0, t.arch.memChanged 0)) =
      .ok (7, true) := ⟨rfl, rfl, rfl⟩

/-- C4 (amended): the Functional Executor commits an ORI with the
sign-extended immediate (its 32-bit pattern), in every mode — but the
WF EX stage computes the zero-extended 16-bit field (`imm & 0xFFFF`)
instead, so the value computed in EX (and forwarded from it) differs
from the committed value whenever the immediate's sign bit is set.
Stated here for EX cycles without forwarding sources (MEM and WB
bubbles). -/
theorem c4_amended :
    (∀ (i : DecodedInstruction) (s : SimState), i.opcode = oORI →
      (simulate_instruction i s).map (fun a => a.registers i.rt) =
        .ok (Nat.lor (s.registers i.rs) (pat32 i.immediate))) ∧
    (∀ s : PipeState, s.stEX.valid = true → s.stEX.instr.opcode = oORI →
      s.stMEM.valid = false → s.stWB.valid = false →
      (wfExPhase s).1.stEX.result_val =
        Nat.lor (s.arch.registers s.stEX.instr.rs)
          (Nat.land (pat32 s.stEX.instr.immediate) 65535)) := by
  constructor
  · intro i s hop
    simp [simulate_instruction, hop, upd, oADD, oADDI, oSUB, oSUBI, oMUL,
          oMULI, oOR, oORI, Except.map]
  · intro s hexv hop hmem hwb
    obtain ⟨sIF, sID, sEX, sMEM, sWB, sA, sP, sH, sC, sS, sF⟩ := s
    simp only at hexv hop hmem hwb
    simp [wfExPhase, wfExCompute, wfFwd, is_nop, hexv, hop, hmem, hwb,
          oADD, oADDI, oSUB, oSUBI, oMUL, oMULI, oOR, oORI, oAND, oANDI,
          oXOR, oXORI, oLDW, oSTW, oBZ, oBEQ, oJR, oHALT, oNOP]

/-- C4 witness: the amended theorem's EX clause applied to the concrete
`ORI R1, R0, 0x8000` state, and its commit clause applied to the same
decoded instruction on the zeroed machine state. -/
theorem c4_amended_witness :
    (wfExPhase c4ExSt).1.stEX.result_val =
      Nat.lor (c4ExSt.arch.registers c4ExSt.stEX.instr.rs)
        (Nat.land (pat32 c4ExSt.stEX.instr.immediate) 65535) ∧
    (simulate_instruction (decode_instruction 0x1C018000) (initArch (fun _ => 0))).map
      (fun a => a.registers (decode_instruction 0x1C018000).rt) =
      .ok (Nat.lor ((initArch (fun _ => 0)).registers (decode_instruction 0x1C018000).rs)
        (pat32 (decode_instruction 0x1C018000).immediate)) :=
  ⟨c4_amended.2 c4ExSt rfl rfl rfl rfl,
   c4_amended.1 (decode_instruction 0x1C018000) (initArch (fun _ => 0)) rfl⟩

/-- C4 counterexample: for `ORI R1, R0, 0x8000` (word `0x1C018000`) the
WF EX stage computes the zero-extended value 0x8000 = 32768, while the
Functional Executor commits the sign-extended value 0xFFFF8000 =
4294934528 — the two are not equal. -/
theorem c4_counterexample :
    (wfCycle c4ExSt).map (fun t => t.stMEM.result_val) = .ok 32768 ∧
    (simulate_instruction (decode_instruction 0x1C018000) (initArch (fun _ => 0))).map
      (fun a => a.registers 1) = .ok 4294934528 ∧
    (32768 : Nat) ≠ 4294934528 := ⟨rfl, rfl, by decide⟩

/-- C5 (amended): committing an STW computes `a = R[rs] + imm`; the
alignment check only emits a diagnostic — whenever the truncated word
index `a / 4` is inside `MEM[0..1023]`, the store is performed there
(aligned or not), the word is marked changed, and the PC advances
normally.  (There is no bounds check in the source at all; an index
outside the array is undefined behaviour.) -/
theorem c5_amended :
    ∀ (i : DecodedInstruction) (s : SimState), i.opcode = oSTW →
      0 ≤ Int.tdiv (toSigned (wrap32 (s.registers i.rs + pat32 i.immediate))) 4 →
      Int.tdiv (toSigned (wrap32 (s.registers i.rs + pat32 i.immediate))) 4 < 1024 →
      (simulate_instruction i s).map (fun a =>
        (a.memory (Int.tdiv (toSigned (wrap32 (s.registers i.rs + pat32 i.immediate))) 4).toNat,
         a.memChanged (Int.tdiv (toSigned (wrap32 (s.registers i.rs + pat32 i.immediate))) 4).toNat,
         a.pc)) =
      .ok (s.registers i.rt, true, wrap32 (s.pc + 4)) := by
  intro i s hop h0 h1
  simp [simulate_instruction, hop, upd, updB, Except.map, Int.not_lt.mpr h0,
        Int.not_le.mpr h1, oADD, oADDI, oSUB, oSUBI, oMUL, oMULI, oOR, oORI,
        oAND, oANDI, oXOR, oXORI, oLDW, oSTW]

/-- C5 witness: the amended theorem applied to the unaligned store
`STW R0, 1(R0)` on the zeroed machine state (effective address 1, word
index 0). -/
theorem c5_amended_witness :
    (simulate_instruction
        { opcode := oSTW, type := .I_TYPE, rs := 0, rt := 0, rd := 0, immediate := 1 }
        (initArch (fun _ => 0))).map (fun a => (a.memory 0, a.memChanged 0, a.pc)) =
      .ok (0, true, 4) :=
  c5_amended { opcode := oSTW, type := .I_TYPE, rs := 0, rt := 0, rd := 0, immediate := 1 }
    (initArch (fun _ => 0)) rfl (by decide) (by decide)

/-- C5 counterexample: for the image `STW R0, 1(R0); HALT` the store is
not suppressed — memory word 0 (which held the STW encoding
`0x34000001`) is overwritten with 0 and marked changed, so the final
memory is not unchanged; HALT still retires (final PC 8, 2 commits). -/
theorem c5_counterexample :
    mkMem [0x34000001, 0x44000000] 0 = 0x34000001 ∧
    (fsRun 100 (initArch (mkMem [0x34000001, 0x44000000]))).map
      (fun s => (s.memory 0, s.memChanged 0, s.pc, s.totalInstructions)) =
      .ok (0, true, 8, 2) ∧
    (0 : Nat) ≠ 0x34000001 := ⟨rfl, rfl, by decide⟩

/-- C6 (amended): for every word whose opcode field is not a defined
opcode, the decoder marks the instruction invalid with all register and
immediate fields zeroed but keeps the raw opcode (it does not substitute
NOP), and when such an instruction reaches the Functional Executor the
process exits with status 1 — simulation does abort on an unknown
opcode. -/
theorem c6_amended :
    ∀ (w : Nat) (s : SimState),
      get_instruction_type ((w / 67108864) % 64) = .INVALID_TYPE →
      decode_instruction w =
        { opcode := (w / 67108864) % 64, type := .INVALID_TYPE,
          rs := 0, rt := 0, rd := 0, immediate := 0 } ∧
      simulate_instruction (decode_instruction w) s = .error .unknownOpcode := by
  intro w s h
  have hdec : decode_instruction w =
      { opcode := (w / 67108864) % 64, type := .INVALID_TYPE,
        rs := 0, rt := 0, rd := 0, immediate := 0 } := by
    simp only [decode_instruction]
    rw [h]
  refine ⟨hdec, ?_⟩
  have hops := h
  unfold get_instruction_type at hops
  split at hops
  · exact absurd hops (by simp)
  · split at hops
    · exact absurd hops (by simp)
    · rename_i hA hB
      simp only [Bool.or_eq_true, beq_iff_eq, not_or] at hA hB
      rw [hdec]
      simp [simulate_instruction, hA, hB]

/-- C6 witness: the amended theorem applied to the concrete word
`0xFC000000` on the zeroed machine state. -/
theorem c6_amended_witness :
    decode_instruction 0xFC000000 =
      { opcode := 63, type := .INVALID_TYPE,
        rs := 0, rt := 0, rd := 0, immediate := 0 } ∧
    simulate_instruction (decode_instruction 0xFC000000) (initArch (fun _ => 0)) =
      .error .unknownOpcode :=
  c6_amended 0xFC000000 (initArch (fun _ => 0)) rfl

/-- C6 counterexample: the word `0xFC000000` (opcode 0x3F) is marked
invalid but the decoder keeps the raw opcode instead of substituting
NOP, and executing it makes the core exit — it does abort. -/
theorem c6_counterexample :
    (decode_instruction 0xFC000000).type = .INVALID_TYPE ∧
    ¬((decode_instruction 0xFC000000).opcode = oNOP) ∧
    simulate_instruction (decode_instruction 0xFC000000) (initArch (fun _ => 0)) =
      .error .unknownOpcode := ⟨rfl, by decide, rfl⟩

/-- Full characterisation of the reader loop from any start count:
it fails exactly when some valid token is consumed at count 1024, and
otherwise returns the count of leading valid tokens and the memory
populated with them in order, every other word untouched. -/
theorem readWords_spec (tokens : List (Option Nat)) :
    ∀ (c : Nat) (mem : Nat → Nat),
      (1024 < c + leadCount tokens → 1 ≤ leadCount tokens →
        readWords tokens c mem = none) ∧
      (c + leadCount tokens ≤ 1024 ∨ leadCount tokens = 0 →
        ∃ m2, readWords tokens c mem = some (c + leadCount tokens, m2) ∧
          (∀ i, i < c → m2 i = mem i) ∧
          (∀ i, c ≤ i → i < c + leadCount tokens → m2 i = tokenVal tokens (i - c)) ∧
          (∀ i, c + leadCount tokens ≤ i → m2 i = mem i)) := by
  induction tokens with
  | nil =>
    intro c mem
    refine ⟨fun _ h1 => by simp [leadCount] at h1, fun _ => ⟨mem, ?_, ?_, ?_, ?_⟩⟩
    · simp [readWords, leadCount]
    · intro i _; rfl
    · intro i h1 h2; simp [leadCount] at h2; omega
    · intro i _; rfl
  | cons head rest ih =>
    cases head with
    | none =>
      intro c mem
      refine ⟨fun _ h1 => by simp [leadCount] at h1, fun _ => ⟨mem, ?_, ?_, ?_, ?_⟩⟩
      · simp [readWords, leadCount]
      · intro i _; rfl
      · intro i h1 h2; simp [leadCount] at h2; omega
      · intro i _; rfl
    | some v =>
      intro c mem
      have hlead : leadCount (some v :: rest) = leadCount rest + 1 := rfl
      refine ⟨?_, ?_⟩
      · intro hgt _
        rw [hlead] at hgt
        by_cases hc : 1024 ≤ c
        · simp [readWords, hc]
        · have hrec := (ih (c + 1) (upd mem c v)).1 (by omega) (by omega)
          simp [readWords, hc, hrec]
      · intro hle
        rw [hlead] at hle
        have hle2 : c + 1 + leadCount rest ≤ 1024 := by
          rcases hle with h | h
          · omega
          · omega
        have hc : ¬ 1024 ≤ c := by omega
        obtain ⟨m2, hread, p1, p2, p3⟩ :=
          (ih (c + 1) (upd mem c v)).2 (Or.inl hle2)
        refine ⟨m2, ?_, ?_, ?_, ?_⟩
        · rw [hlead]
          simp only [readWords, if_neg hc]
          rw [hread, show c + 1 + leadCount rest = c + (leadCount rest + 1) from by omega]
        · intro i hi
          rw [p1 i (by omega), upd]
          simp [Nat.ne_of_lt hi]
        · intro i h1 h2
          rw [hlead] at h2
          by_cases hic : i = c
          · subst hic
            rw [p1 i (by omega), upd]
            simp [tokenVal]
          · rw [p2 i (by omega) (by omega),
                show i - (c + 1) = (i - c) - 1 from by omega]
            have hk : i - c = ((i - c) - 1) + 1 := by omega
            rw [hk, show (i - c - 1 + 1) - 1 = i - c - 1 from by omega]
            simp [tokenVal]
        · intro i hi
          rw [hlead] at hi
          rw [p3 i (by omega), upd]
          simp [show i ≠ c from by omega]

/-- C7 (amended): the reader fails exactly when more than 1024 valid
hexadecimal tokens are present before the first malformed token or end
of file; a malformed token merely ends parsing — the call succeeds with
the words read so far — and on success words `0..n-1` are populated in
file order with every other word left untouched. -/
theorem c7_amended :
    ∀ (tokens : List (Option Nat)) (mem : Nat → Nat),
      (read_memory_image tokens mem = none ↔ 1024 < leadCount tokens) ∧
      (leadCount tokens ≤ 1024 →
        ∃ m2, read_memory_image tokens mem = some (leadCount tokens, m2) ∧
          (∀ i, i < leadCount tokens → m2 i = tokenVal tokens i) ∧
          (∀ i, leadCount tokens ≤ i → m2 i = mem i)) := by
  intro tokens mem
  constructor
  · constructor
    · intro h
      by_contra hle
      push_neg at hle
      obtain ⟨m2, hread, _, _, _⟩ :=
        (readWords_spec tokens 0 mem).2 (Or.inl (by omega))
      rw [read_memory_image, hread] at h
      cases h
    · intro h
      exact (readWords_spec tokens 0 mem).1 (by omega) (by omega)
  · intro h
    obtain ⟨m2, hread, _, p2, p3⟩ :=
      (readWords_spec tokens 0 mem).2 (Or.inl (by omega))
    refine ⟨m2, ?_, ?_, ?_⟩
    · rw [read_memory_image, hread]
      simp
    · intro i hi
      have := p2 i (Nat.zero_le i) (by omega)
      simpa using this
    · intro i hi
      exact p3 i (by omega)

/-- C7 witness: the amended success clause applied to a concrete input
with one valid token — the read succeeds. -/
theorem c7_amended_witness :
    (read_memory_image [some 5] (fun _ => 0)).isSome = true := by
  obtain ⟨m2, hread, _, _⟩ :=
    (c7_amended [some 5] (fun _ => 0)).2 (by decide)
  rw [hread]
  rfl

/-- C7 counterexample: on an input whose first token is not a valid hex
word the reader succeeds (with zero words read) instead of failing. -/
theorem c7_counterexample :
    (read_memory_image [none] (fun _ => 0)).isSome = true := rfl

/-- C8 (amended): when a taken branch is in EX, both pipelines set the
fetch PC to the target, squash the two wrong-path instructions (ID and
EX receive bubbles after the shift) and count two flushes — but the
instruction at the branch target is fetched into IF in that same cycle
(the fetch block does not consult the flush flag); in NF a concurrent
RAW stall instead holds IF and ID and suppresses the fetch.  An untaken
branch incurs no penalty: no flush, no stall, normal advancement and a
normal fetch.  Stated here for a `BZ` resolved in EX, on cycles whose
WB latch (and, for WF, MEM latch) is a bubble. -/
theorem c8_amended :
    (∀ s t, s.stWB.valid = false → s.stEX.valid = true →
      s.stEX.instr.opcode = oBZ → s.arch.registers s.stEX.instr.rs = 0 →
      nfStallFires s.stID s.stEX s.stMEM = false → s.halt_seen = false →
      branchTargetOf s.stEX < 4096 → nfCycle s = .ok t →
      t.pipeline_pc = wrap32 (branchTargetOf s.stEX + 4) ∧
      t.total_flushes = s.total_flushes + 2 ∧
      t.total_stalls = s.total_stalls ∧
      t.stID = nopReg ∧ t.stEX = nopReg ∧
      t.stMEM = s.stEX ∧ t.stWB = s.stMEM ∧
      t.stIF.valid = true ∧ t.stIF.pc = branchTargetOf s.stEX ∧
      t.stIF.instr = decode_instruction (s.arch.memory (branchTargetOf s.stEX / 4))) ∧
    (∀ s t, s.stWB.valid = false → s.stMEM.valid = false →
      s.stEX.valid = true → s.stEX.instr.opcode = oBZ →
      s.arch.registers s.stEX.instr.rs = 0 → s.halt_seen = false →
      branchTargetOf s.stEX < 4096 → wfCycle s = .ok t →
      t.pipeline_pc = wrap32 (branchTargetOf s.stEX + 4) ∧
      t.total_flushes = s.total_flushes + 2 ∧
      t.total_stalls = s.total_stalls ∧
      t.stID = nopReg ∧ t.stEX = nopReg ∧
      t.stIF.valid = true ∧ t.stIF.pc = branchTargetOf s.stEX ∧
      t.stIF.instr = decode_instruction (s.arch.memory (branchTargetOf s.stEX / 4))) ∧
    (∀ s t, s.stWB.valid = false → s.stEX.valid = true →
      s.stEX.instr.opcode = oBZ → ¬(s.arch.registers s.stEX.instr.rs = 0) →
      nfStallFires s.stID s.stEX s.stMEM = false → s.halt_seen = false →
      s.pipeline_pc < 4096 → nfCycle s = .ok t →
      t.total_flushes = s.total_flushes ∧ t.total_stalls = s.total_stalls ∧
      t.pipeline_pc = wrap32 (s.pipeline_pc + 4) ∧
      t.stMEM = s.stEX ∧ t.stEX = s.stID ∧ t.stID = s.stIF ∧
      t.stIF.valid = true ∧ t.stIF.pc = s.pipeline_pc) ∧
    (∀ s t, s.stWB.valid = false → s.stMEM.valid = false →
      s.stEX.valid = true → s.stEX.instr.opcode = oBZ →
      ¬(s.arch.registers s.stEX.instr.rs = 0) → s.halt_seen = false →
      s.pipeline_pc < 4096 → wfCycle s = .ok t →
      t.total_flushes = s.total_flushes ∧ t.total_stalls = s.total_stalls ∧
      t.pipeline_pc = wrap32 (s.pipeline_pc + 4) ∧
      t.stEX = s.stID ∧ t.stID = s.stIF ∧
      t.stIF.valid = true ∧ t.stIF.pc = s.pipeline_pc) := by
  refine ⟨?_, ?_, ?_, ?_⟩
  · intro s t hwb hexv hop hreg hstall hhalt htgt h
    rw [nfCycle_bubble hwb] at h
    cases h
    obtain ⟨sIF, sID, sEX, sMEM, sWB, sA, sP, sH, sC, sS, sF⟩ := s
    simp only [branchTargetOf] at htgt ⊢
    simp only at hexv hop hreg hstall hhalt
    simp [nfRest, nfResolveBranch, nfShiftFetch, is_nop, branchTargetOf,
          hexv, hop, hreg, hstall, hhalt, htgt, oBZ, oBEQ, oJR, oNOP]
  · intro s t hwb hmem hexv hop hreg hhalt htgt h
    rw [wfCycle_bubble hwb] at h
    cases h
    obtain ⟨sIF, sID, sEX, sMEM, sWB, sA, sP, sH, sC, sS, sF⟩ := s
    simp only [branchTargetOf] at htgt ⊢
    simp only at hwb hmem hexv hop hreg hhalt
    simp [wfRest, wfMemPhase, wfExPhase, wfExCompute, wfFwd, wfStallOf,
          wfShiftFetch, is_nop, branchTargetOf, hwb, hmem, hexv, hop, hreg,
          hhalt, htgt, oBZ, oBEQ, oJR, oNOP, oLDW, oSTW, oADD, oSUB, oMUL,
          oOR, oAND, oXOR, oADDI, oSUBI, oMULI, oORI, oANDI, oXORI]
  · intro s t hwb hexv hop hreg hstall hhalt hpc h
    rw [nfCycle_bubble hwb] at h
    cases h
    obtain ⟨sIF, sID, sEX, sMEM, sWB, sA, sP, sH, sC, sS, sF⟩ := s
    simp only at hexv hop hreg hstall hhalt hpc
    simp [nfRest, nfResolveBranch, nfShiftFetch, is_nop,
          hexv, hop, hreg, hstall, hhalt, hpc, oBZ, oBEQ, oJR, oNOP]
  · intro s t hwb hmem hexv hop hreg hhalt hpc h
    rw [wfCycle_bubble hwb] at h
    cases h
    obtain ⟨sIF, sID, sEX, sMEM, sWB, sA, sP, sH, sC, sS, sF⟩ := s
    simp only at hwb hmem hexv hop hreg hhalt hpc
    simp [wfRest, wfMemPhase, wfExPhase, wfExCompute, wfFwd, wfStallOf,
          wfShiftFetch, is_nop, hwb, hmem, hexv, hop, hreg, hhalt, hpc,
          oBZ, oBEQ, oJR, oNOP, oLDW, oSTW, oADD, oSUB, oMUL,
          oOR, oAND, oXOR, oADDI, oSUBI, oMULI, oORI, oANDI, oXORI]

/-- C8 witness: the NF clause of the amended theorem applied to the
concrete taken-`BZ` state: two flushes are counted and the target
instruction is fetched. -/
theorem c8_amended_witness :
    (nfRest { c8St with clock_cycles := c8St.clock_cycles + 1 }).total_flushes
      = c8St.total_flushes + 2 ∧
    (nfRest { c8St with clock_cycles := c8St.clock_cycles + 1 }).stIF.valid = true :=
  ⟨(c8_amended.1 c8St _ rfl rfl rfl rfl rfl rfl (by decide)
      (nfCycle_bubble rfl)).2.1,
   (c8_amended.1 c8St _ rfl rfl rfl rfl rfl rfl (by decide)
      (nfCycle_bubble rfl)).2.2.2.2.2.2.2.1⟩

/-- C8 counterexample: a no-forwarding cycle with a taken `BZ R0, +2`
in EX does fetch an instruction into IF in that same cycle — IF ends the
cycle holding the valid instruction at the branch target (byte address
8), not a bubble. -/
theorem c8_counterexample :
    (nfCycle c8St).map (fun t =>
      (t.stIF.valid, t.stIF.pc, t.stIF.instr.opcode, t.pipeline_pc, t.total_flushes)) =
      .ok (true, 8, oADDI, 12, 2) := rfl

/-- When the code's stall condition holds, the rest of a no-forwarding
cycle counts one stall. -/
theorem nfRest_stalls_pos (u : PipeState)
    (h : nfStallFires u.stID u.stEX u.stMEM = true) :
    (nfRest u).total_stalls = u.total_stalls + 1 := by
  obtain ⟨uIF, uID, uEX, uMEM, uWB, uA, uP, uH, uC, uS, uF⟩ := u
  simp only [nfRest] at *
  rw [(nfShiftFetch_counters _ _ _).1]
  simp [h]

/-- When the code's stall condition fails, the rest of a no-forwarding
cycle leaves the stall counter alone. -/
theorem nfRest_stalls_neg (u : PipeState)
    (h : nfStallFires u.stID u.stEX u.stMEM = false) :
    (nfRest u).total_stalls = u.total_stalls := by
  obtain ⟨uIF, uID, uEX, uMEM, uWB, uA, uP, uH, uC, uS, uF⟩ := u
  simp only [nfRest] at *
  rw [(nfShiftFetch_counters _ _ _).1]
  simp [h]

/-- On a no-forwarding stall: IF and ID hold, EX receives a bubble, MEM
receives EX's prior contents, WB receives MEM's prior contents. -/
theorem nfRest_stall_latches (u : PipeState)
    (h : nfStallFires u.stID u.stEX u.stMEM = true) :
    (nfRest u).stIF = u.stIF ∧ (nfRest u).stID = u.stID ∧
    (nfRest u).stEX = nopReg ∧ (nfRest u).stMEM = u.stEX ∧
    (nfRest u).stWB = u.stMEM := by
  obtain ⟨uIF, uID, uEX, uMEM, uWB, uA, uP, uH, uC, uS, uF⟩ := u
  simp only [nfRest, nfShiftFetch] at *
  simp [h]

/-- C9 (amended): a no-forwarding cycle stalls — increments the stall
counter by exactly 1 — if and only if the code's hazard condition
holds: the claim's source/destination matching, additionally gated on
the ID latch being a valid instruction that is neither HALT nor NOP (a
HALT or NOP whose encoding carries non-zero register fields never
stalls).  On such a stall IF and ID hold their contents (so nothing is
fetched), EX receives a bubble, MEM receives EX's prior contents and WB
receives MEM's prior contents. -/
theorem c9_amended :
    ∀ s t, nfCycle s = .ok t →
      ((t.total_stalls = s.total_stalls + 1) ↔
        nfStallFires s.stID s.stEX s.stMEM = true) ∧
      (nfStallFires s.stID s.stEX s.stMEM = true →
        t.stIF = s.stIF ∧ t.stID = s.stID ∧ t.stEX = nopReg ∧
        t.stMEM = s.stEX ∧ t.stWB = s.stMEM) := by
  intro s t h
  unfold nfCycle at h
  cases hwb : nfWbPhase { s with clock_cycles := s.clock_cycles + 1 } with
  | error e => rw [hwb] at h; exact absurd h (by simp [Except.map])
  | ok u =>
    rw [hwb] at h
    simp only [Except.map] at h
    cases h
    obtain ⟨hIF, hID, hEX, hMEM, hWB, _, _, hS, _⟩ := nfWbPhase_frame hwb
    constructor
    · cases hstall : nfStallFires s.stID s.stEX s.stMEM with
      | true =>
        have : nfStallFires u.stID u.stEX u.stMEM = true := by
          rw [hID, hEX, hMEM]; exact hstall
        simp [nfRest_stalls_pos u this, hS]
      | false =>
        have : nfStallFires u.stID u.stEX u.stMEM = false := by
          rw [hID, hEX, hMEM]; exact hstall
        simp [nfRest_stalls_neg u this, hS]
    · intro hstall
      have hst : nfStallFires u.stID u.stEX u.stMEM = true := by
        rw [hID, hEX, hMEM]; exact hstall
      obtain ⟨e1, e2, e3, e4, e5⟩ := nfRest_stall_latches u hst
      exact ⟨by rw [e1, hIF], by rw [e2, hID], e3, by rw [e4, hEX],
             by rw [e5, hMEM]⟩

/-- C9 witness: the amended theorem applied to a genuine RAW hazard
(`ADD R2, R1, R1` in ID behind `ADDI R1, R0, 5` in EX) — the cycle
counts exactly one stall. -/
theorem c9_amended_witness :
    (nfCycle c9WitSt).map (fun t => t.total_stalls) = .ok 1 := by
  have h := ((c9_amended c9WitSt _ (nfCycle_bubble rfl)).1).mpr rfl
  rw [nfCycle_bubble (s := c9WitSt) rfl]
  simp only [Except.map]
  rw [h]
  rfl

/-- C9 counterexample: with a HALT whose encoding carries `rs = 1` in
ID and an `ADDI R1, ...` producer in EX, the claim's stall predicate
holds, yet the cycle does not stall — the stall counter stays 0 and the
HALT advances normally into EX. -/
theorem c9_counterexample :
    specStallPredC9 c9CexSt.stID c9CexSt.stEX c9CexSt.stMEM = true ∧
    (nfCycle c9CexSt).map (fun t => (t.total_stalls, t.stEX.instr.opcode)) =
      .ok (0, oHALT) := ⟨rfl, rfl⟩

/-- C10 (amended): an STW that reaches the MEM stage with an *aligned,
in-bounds* latched effective address writes the latched store data to
memory there (and marks the word changed); it then writes memory a
second time when it retires at WB, where the Functional Executor
recomputes address and data from the architectural registers — and the
two writes can target different words with different values, as the
concrete two-cycle run in the second conjunct shows (MEM-stage write of
7 to word 0, retirement write of 9 to word 1). -/
theorem c10_amended :
    (∀ s : PipeState, s.stMEM.valid = true → s.stMEM.instr.opcode = oSTW →
      s.stMEM.branch_target % 4 = 0 → s.stMEM.branch_target < 4096 →
      (wfMemPhase s).arch.memory (s.stMEM.branch_target / 4) = s.stMEM.result_val ∧
      (wfMemPhase s).arch.memChanged (s.stMEM.branch_target / 4) = true) ∧
    ((wfCycle c10TwoSt).bind wfCycle).map
      (fun t => (t.arch.memory 0, t.arch.memory 1)) = .ok (7, 9) := by
  constructor
  · intro s hv hop hal hlt
    simp [wfMemPhase, is_nop, hv, hop, hal, hlt, upd, updB, oLDW, oSTW, oNOP]
  · rfl

/-- C10 witness: the amended theorem's MEM-stage clause applied to a
concrete aligned store latch (address 4, data 5). -/
theorem c10_amended_witness :
    (wfMemPhase c10WitSt).arch.memory 1 = 5 ∧
    (wfMemPhase c10WitSt).arch.memChanged 1 = true :=
  c10_amended.1 c10WitSt rfl rfl rfl (by decide)

/-- C10 counterexample: an STW that reaches the MEM stage with an
unaligned latched effective address (1) performs no MEM-stage write at
all — memory word 0 stays 0 and is not marked changed — so not every
STW reaching MEM writes memory twice. -/
theorem c10_counterexample :
    (wfCycle c10CexSt).map (fun t => (t.arch.memory 0, t.arch.memChanged 0)) =
      .ok (0, false) := rfl

end MipsLite
